import Mathlib

set_option maxHeartbeats 1000000

/-!
Shallow embedding of the SMTP notification plugin
(src/plugins/smtpmsg/__init__.py, class SmtpMsg) and proofs about the
claims of its specification.

Conventions of the embedding:
* Python attributes read by the dispatch pipeline become fields of `Config`.
* Python values that may be `None` become `Option` values; Python truthiness
  is made explicit by the `pyTruthy...` helpers.
* A Python function that may `raise` becomes a function into `Except String`,
  the string being the message of the raised exception (or a short English
  description when the exception carries no custom message, such as an
  `AttributeError` coming from the runtime).
* Interactions with the outside world (sockets, HTTP, the filesystem) are
  parametrised by `World` / `ImgWorld` records of oracles; the pipeline
  records the externally visible operations it performs in a trace of `Act`
  values so that claims about "no network connection is attempted" or about
  the order of connection, login and message construction can be stated.
-/

/-- Plugin configuration attributes (the `self._...` fields assigned in
`init_plugin`) that are read by the dispatch pipeline.  Unset text fields are
`none` (in `init_plugin` most `config.get(...)` calls have no default, hence
yield Python `None` when the key is absent). -/
structure Config where
  enabled : Bool := false
  send_image : Bool := false
  main : Bool := true
  secondary : Bool := false
  test : Bool := false
  other_msgtypes : Bool := false
  msgtypes : List String := []
  main_smtp_host : Option String := none
  main_smtp_port : Option String := none
  main_smtp_encryption : String := "not_encrypted"
  main_sender_mail : Option String := none
  main_sender_password : Option String := none
  secondary_smtp_host : Option String := none
  secondary_smtp_port : Option String := none
  secondary_smtp_encryption : String := "not_encrypted"
  secondary_sender_mail : Option String := none
  secondary_sender_password : Option String := none
  sender_name : Option String := none
  receiver_mail : String := ""
  deriving Repr, DecidableEq

/-- Python truthiness of a tri-state `None / True / False` value
(used for `if success:` in `master_program`). -/
def pyTruthy : Option Bool → Bool
  | some b => b
  | none => false

/-- Python truthiness of an optional string (`None` and `""` are falsy). -/
def pyTruthyStrOpt : Option String → Bool
  | some s => decide (s ≠ "")
  | none => false

/-- `SmtpMsg._determine_server`.  Given the slot number (`smtp_value`) and the
prior outcome (`success`, a Python tri-state), returns the pair
`(success, server_type)` that the source returns, or the exception it raises
for an unknown slot.  Note that for `smtp_value = 1` with no prior outcome the
source assigns no value to `status`, so the returned `success` is `None`. -/
def determine_server (c : Config) (smtp_value : Nat) (success : Option Bool) :
    Except String (Option Bool × String) :=
  match (if smtp_value = 0 then some "主"
         else if smtp_value = 1 then some "备用" else none) with
  | none => Except.error "判断失败 - 原因 - 未知的SMTP服务器类型"
  | some server_type =>
      let status : Option Bool :=
        match success with
        | none => if smtp_value = 0 then some true else none
        | some s =>
            if c.test then some c.secondary
            else if s then some false
            else some c.secondary
      Except.ok (status, server_type)

/-- `SmtpMsg._generate_result_log`.  Maps the two per-server outcomes to the
summary message assigned to `msg` (`none` when the source leaves `msg = None`),
or to the exception raised by the final `else` branch.  The `test` flag selects
the `"测试"` wording and gates the branches that only assign under
`self._test`. -/
def generate_result_log (test : Bool) (m_success s_success : Option Bool) :
    Except String (Option String) :=
  let tt := if test then "测试" else ""
  match m_success with
  | some true =>
    match s_success with
    | some true =>
        Except.ok (if test then some ("所有服务器发送" ++ tt ++ "邮件成功！") else none)
    | some false =>
        Except.ok (if test then
          some ("主服务器发送" ++ tt ++ "邮件成功！备用服务器发送" ++ tt ++ "邮件失败！")
        else none)
    | none =>
        Except.ok (some (if test then
          "主服务器发送" ++ tt ++ "邮件成功！未启动备用服务器！"
        else "主服务器发送" ++ tt ++ "邮件成功！"))
  | some false =>
    match s_success with
    | some true =>
        Except.ok (some ("备用服务器发送" ++ tt ++ "邮件成功！主服务器发送" ++ tt ++ "邮件失败！"))
    | some false =>
        Except.ok (some ("所有服务器发送" ++ tt ++ "邮件失败！"))
    | none =>
        Except.ok (some ("主服务器发送" ++ tt ++ "邮件失败！备用服务器未启动！无法发送" ++ tt ++ "邮件！"))
  | none => Except.error "出现未知错误，无法打印运行结果"

/-!  Image values and the embedding step (`___msg_build_email_body_embed_image`). -/

/-- The dynamic type of the `image` value reaching the embedding step:
a Python `str`, a Python `bytes` payload, or some other object (for example a
`Path`).  The source dispatches on `isinstance(image, str)`. -/
inductive ImgVal where
  | str (s : String)
  | bytes (b : List Nat)
  | other
  deriving Repr, DecidableEq

/-- Python truthiness of an image value (`if image:`).  Empty strings and empty
byte strings are falsy; any other object used by the plugin is truthy. -/
def ImgVal.truthy : ImgVal → Bool
  | .str s => decide (s ≠ "")
  | .bytes b => decide (b ≠ [])
  | .other => true

/-- Characters allowed in a URL scheme by `urllib.parse`
(`scheme_chars = ascii letters + digits + "+-."`). -/
def isSchemeChar (ch : Char) : Bool :=
  ch.isAlpha || ch.isDigit || ch = '+' || ch = '-' || ch = '.'

/-- Split a character list at the first `':'`; `none` when no colon occurs. -/
def splitAtColon : List Char → Option (List Char × List Char)
  | [] => none
  | ch :: cs =>
    if ch = ':' then some ([], cs)
    else match splitAtColon cs with
      | none => none
      | some (pre, post) => some (ch :: pre, post)

/-- `urllib.parse.urlparse(s).scheme`: the lowercased text before the first
colon when it is nonempty and made of scheme characters, else `""`. -/
def urlparse_scheme (s : String) : String :=
  match splitAtColon s.data with
  | none => ""
  | some (pre, _) =>
    if pre ≠ [] && pre.all isSchemeChar then String.mk (pre.map Char.toLower)
    else ""

/-- `urllib.parse.uses_netloc` (CPython).  Note that it contains the empty
string, so a string without a scheme also passes the
`parsed_url.scheme in set(urllib.parse.uses_netloc)` test of the source. -/
def uses_netloc : List String :=
  ["", "ftp", "http", "gopher", "nntp", "telnet", "imap", "wais", "file",
   "mms", "https", "shttp", "snews", "prospero", "rtsp", "rtspu", "rsync",
   "svn", "svn+ssh", "sftp", "nfs", "git", "git+ssh", "ws", "wss"]

/-- Does the pattern (first argument) start the list (second argument)? -/
def lStartsWith : List Char → List Char → Bool
  | [], _ => true
  | _ :: _, [] => false
  | p :: ps, ch :: cs => p = ch && lStartsWith ps cs

/-- Drop the maximal leading run of ASCII letters. -/
def dropAlphaRun : List Char → List Char
  | [] => []
  | ch :: cs => if ch.isAlpha then dropAlphaRun cs else ch :: cs

/-- Lowercase every character (`re.IGNORECASE` matching is modelled by
lowercasing both sides; the pattern below is already lowercase). -/
def charsLower (l : List Char) : List Char := l.map Char.toLower

/-- Marker list of the literal head of the data-URI pattern. -/
def dataUriHead : List Char := "data:image/".data

/-- Marker list of the literal middle of the data-URI pattern. -/
def b64Marker : List Char := ";base64,".data

/-- Full match of `re.compile(r'^data:image/([a-zA-Z]*);base64,(\S*)$',
re.IGNORECASE)` against `s`.  Because `;` is not a letter, the greedy group
`[a-zA-Z]*` must be exactly the maximal letter run after the head, so the
match is equivalent to this deterministic parse. -/
def matchesDataUri (s : String) : Bool :=
  let l := charsLower s.data
  lStartsWith dataUriHead l &&
    (let rest2 := dropAlphaRun (l.drop dataUriHead.length)
     lStartsWith b64Marker rest2 &&
       (rest2.drop b64Marker.length).all (fun ch => !ch.isWhitespace))

/-- What the local variable `image_data` can hold: raw `bytes` (from
`response.content` or `base64.b64decode`) or a `MIMEImage` object (only the
local-file branch builds one).  Only a `MIMEImage` supports `add_header`. -/
inductive ImageData where
  | rawBytes (b : List Nat)
  | mimeImage (b : List Nat)
  deriving Repr, DecidableEq

/-- External-world oracles used by the embedding step: `requests.get`
(an `Except.error` models a raised exception, e.g. `MissingSchema` for a
string that is not really a URL; `Except.ok` gives status code and body),
`os.path.isfile`, and reading a file (the error string is the message the
source raises for the corresponding `IOError`). -/
structure ImgWorld where
  httpGet : String → Except String (Nat × List Nat)
  isfile : String → Bool
  readFile : String → Except String (List Nat)

/-- The `requests.get` branch of the classification chain, including the
re-raise of the non-200 failure through `except Exception as e`. -/
def url_fetch_branch (w : ImgWorld) (s : String) : Except String (Option ImageData) :=
  match w.httpGet s with
  | Except.ok (code, body) =>
      if code = 200 then Except.ok (some (ImageData.rawBytes body))
      else Except.error ("发生错误 - " ++ "获取图片失败。状态码：" ++ toString code)
  | Except.error e => Except.error ("发生错误 - " ++ e)

/-- The `isinstance(image, str)` branch chain of
`___msg_build_email_body_embed_image`, producing the final value of the local
`image_data` (`Except.ok` wraps it; `Except.error` is a raised exception).
For a non-string value the whole chain is skipped and `image_data` stays
`None`.  Branch order is exactly that of the source: URL scheme test first,
then `os.path.isfile`, then the base64 pattern.  The base64 branch calls
`base64_regex.match(image).group('base64_data')`, but the pattern defines only
positional groups, so the lookup raises `IndexError("no such group")`, which
the source converts to the decode-failure message.  The source's final
`elif isinstance(image, bytes)` sits inside the `isinstance(image, str)`
block, so it is dead code (a `str` is never `bytes`) and does not appear
here. -/
def classify_image_value (w : ImgWorld) (v : ImgVal) : Except String (Option ImageData) :=
  match v with
  | ImgVal.str s =>
      if uses_netloc.contains (urlparse_scheme s) then url_fetch_branch w s
      else if w.isfile s then
        match w.readFile s with
        | Except.ok b => Except.ok (some (ImageData.mimeImage b))
        | Except.error e => Except.error e
      else if matchesDataUri s then
        Except.error ("解码 Base64 数据时出错：" ++ "no such group")
      else
        Except.error "无法识别的输入。请提供有效的 URL、本地文件路径或 Base64 编码的数据。"
  | _ => Except.ok none

/-- A MIME message under construction (`MIMEMultipart`): the headers written
by `__msg_build_email_Header` and the parts attached by the body-building
steps. -/
structure Msg where
  subject : Option String := none
  fromHeader : Option String := none
  altAttached : Bool := false
  imageParts : List ImageData := []
  htmlParts : List String := []
  deriving Repr, DecidableEq

/-- `image_data.add_header('Content-ID', '<image>')` followed by
`message.attach(image_data)`.  Only a `MIMEImage` object has `add_header`;
on raw `bytes` or on `None` the attribute access raises `AttributeError`,
which the inner `except Exception` re-raises. -/
def attach_image_data (d : Option ImageData) (m : Msg) : Except String Msg :=
  match d with
  | some (ImageData.mimeImage b) =>
      Except.ok { m with imageParts := m.imageParts ++ [ImageData.mimeImage b] }
  | some (ImageData.rawBytes _) =>
      Except.error "AttributeError: bytes object has no attribute add_header"
  | none =>
      Except.error "AttributeError: NoneType object has no attribute add_header"

/-- The `(msg, level)` pair the embedding step writes into its log
container. -/
structure EmbedLog where
  msg : Option String
  level : Option Int
  deriving Repr, DecidableEq

/-- `SmtpMsg.___msg_build_email_body_embed_image`.  Total: every exception of
the classification/attach chain is caught by the outer `except`, which records
a level-2 warning and returns the message unchanged.  When image sending is
disabled, or no image was supplied, a level-1 note is recorded instead. -/
def embed_image (c : Config) (w : ImgWorld) (v : ImgVal) (m : Msg) : Msg × EmbedLog :=
  if c.send_image then
    if v.truthy then
      match (classify_image_value w v).bind (fun d => attach_image_data d m) with
      | Except.ok m2 => (m2, ⟨some "图片文件嵌入成功", some 1⟩)
      | Except.error e => (m, ⟨some ("出现错误，跳过嵌入 - 原因 - " ++ e), some 2⟩)
    else (m, ⟨some "未传入图片参数，跳过图片嵌入", some 1⟩)
  else (m, ⟨some "未开启发送图片，抛弃图片数据", some 1⟩)

/-- `SmtpMsg.__msg_build_email_body`: attach the `alternative` part, run the
image embedding (which never raises), then attach the rendered HTML part.
The `except` branch of the source is unreachable because each sub-step is
total, so the result is always `Except.ok`. -/
def msg_build_email_body (c : Config) (w : ImgWorld) (v : ImgVal)
    (msg_html : String) (m : Msg) : Except String Msg :=
  let m1 := { m with altAttached := true }
  let (m2, _log) := embed_image c w v m1
  Except.ok { m2 with htmlParts := m2.htmlParts ++ [msg_html] }

/-!  Per-server configuration, connection, and the send pipeline. -/

/-- One entry of the dict literal built by `__smtp_settings`. -/
structure ServerConf where
  host : Option String
  port : Option String
  encryption : String
  mail : Option String
  password : Option String
  deriving Repr, DecidableEq

/-- `SmtpMsg.__smtp_settings`: the dict literal, as a lookup by key.  Both the
`"main"` and the `"secondary"` keys are always present, and every field key is
always present, whatever the configuration values are. -/
def smtp_settings (c : Config) (smtp_type : String) : Option ServerConf :=
  if smtp_type = "main" then
    some ⟨c.main_smtp_host, c.main_smtp_port, c.main_smtp_encryption,
          c.main_sender_mail, c.main_sender_password⟩
  else if smtp_type = "secondary" then
    some ⟨c.secondary_smtp_host, c.secondary_smtp_port, c.secondary_smtp_encryption,
          c.secondary_sender_mail, c.secondary_sender_password⟩
  else none

/-- `SmtpMsg._get_dict_value`: reads the five fields out of the settings dict.
The `except KeyError` branch (message `... SMTP 服务端配置参数不完整`) only
fires when a dict key is missing; since `smtp_settings` always populates every
key, a `none`/unset field value never triggers it. -/
def get_dict_value (c : Config) (server_type smtp_type : String) :
    Except String ServerConf :=
  match smtp_settings c smtp_type with
  | none => Except.error (server_type ++ " SMTP 服务端配置参数不完整")
  | some sc => Except.ok sc

/-- The dynamic type of the `msg_type` argument: a `NotificationType` member
(with its display `label` = `.value` and its `nm` = `.name`), a free-form
string, or `None`. -/
inductive MsgTypeIn where
  | enum (label : String) (nm : String)
  | str (s : String)
  | noneT
  deriving Repr, DecidableEq

/-- The raw keyword arguments of `master_program` / `_send_to_smtp`. -/
structure EventParams where
  msg_type : MsgTypeIn := MsgTypeIn.noneT
  title : Option String := none
  text : Option String := none
  image : Option ImgVal := none
  userid : Option String := none
  deriving Repr, DecidableEq

/-- `SmtpMsg.plugin_name`. -/
def plugin_name : String := "SMTP邮件消息通知"

/-- `SmtpMsg._test_image` (annotated `Path` in the source but assigned a
string literal). -/
def test_image : ImgVal := ImgVal.str "/public/plugin_icon/Synomail_A.png"

/-- The values returned by `_msg_parameter_validation`. -/
structure ValidatedParams where
  title : String
  text : String
  image : ImgVal
  userid : String
  msg_type : String
  deriving Repr, DecidableEq

/-- `SmtpMsg._msg_parameter_validation`.  On a test run every field is forced
to the synthetic test value.  Otherwise: an enum type is projected to its
label, `None` becomes `""`, and a free-form type passes unchanged only when
`self._other_msgtypes` is on, else the function raises (re-wrapped by its own
`except` into the `邮件变量校验失败` message). -/
def msg_parameter_validation (c : Config) (server_type : String) (p : EventParams) :
    Except String ValidatedParams :=
  let mtR : Except String String :=
    if c.test then Except.ok "测试邮件"
    else
      match p.msg_type with
      | MsgTypeIn.enum label _ => Except.ok label
      | MsgTypeIn.noneT => Except.ok ""
      | MsgTypeIn.str s =>
          if c.other_msgtypes then Except.ok s
          else Except.error "接收到不被支持的消息类型，且未开启第三方消息类型"
  match mtR with
  | Except.error e => Except.error ("邮件变量校验失败 - 原因 - " ++ e)
  | Except.ok mt =>
      Except.ok
        { title := if c.test then "测试" ++ server_type ++ "服务器配置"
                   else p.title.getD ("【" ++ plugin_name ++ "】"),
          text := if c.test then "这是一封测试邮件~~~" else p.text.getD "",
          image := if c.test then test_image else p.image.getD (ImgVal.str ""),
          userid := if c.test then "测试用户" else p.userid.getD "",
          msg_type := mt }

/-- Externally visible operations of one `_send_to_smtp` run, in order.
`validate` records whether the parameter validation succeeded; `connectPlain`
is `smtplib.SMTP(host, port)` and `connectSSL` is
`smtplib.SMTP_SSL(host, port)`; `login` carries the sender address and the
credential passed to `server.login`. -/
inductive Act where
  | validate (ok : Bool)
  | readConfig
  | connectPlain (host port : Option String)
  | connectSSL (host port : Option String)
  | starttls
  | ehlo
  | login (mail password : Option String)
  | readRecipients
  | buildMsg
  | sendMail
  deriving Repr, DecidableEq

/-- Is this act a transport-level connection attempt (socket opened)? -/
def Act.isConnect : Act → Bool
  | Act.connectPlain _ _ => true
  | Act.connectSSL _ _ => true
  | _ => false

/-- Is this act the `server.login` call? -/
def Act.isLogin : Act → Bool
  | Act.login _ _ => true
  | _ => false

/-- Oracles for one dispatch: whether connect+EHLO+login against slot `v`
fails (`some` message = the classified exception raised by
`_connect_to_smtp_server`), the outcome of reading and rendering the mail
template (`__msg_build_read_email_template`, abstracting the template file and
`str.format`), whether the header construction fails, whether
`server.sendmail` against slot `v` fails, whether `server.quit()` on slot
`v`'s session itself raises (smtplib raises `SMTPServerDisconnected` from
`quit()` when the underlying socket already died, e.g. after a mid-send
disconnect), and the image-world oracles. -/
structure World where
  connect_error : Nat → Option String
  template_result : Except String String
  header_error : Option String
  sendmail_error : Nat → Option String
  quit_error : Nat → Option String
  img : ImgWorld

/-- The action sequence of a fully successful `_connect_to_smtp_server` run:
`ssl` uses implicit TLS from the start; `tls` opens plaintext then upgrades
via `starttls`; anything else stays plaintext; then `ehlo` and `login`. -/
def connect_actions (sc : ServerConf) : List Act :=
  (if sc.encryption = "ssl" then [Act.connectSSL sc.host sc.port]
   else [Act.connectPlain sc.host sc.port] ++
     (if sc.encryption = "tls" then [Act.starttls] else [])) ++
  [Act.ehlo, Act.login sc.mail sc.password]

/-- `SmtpMsg._connect_to_smtp_server`: the acts performed and the outcome.
On failure the transport-level connection attempt has still been made (the
constructor call opens the socket), which is what the failure trace records;
the classified failure message is supplied by the world oracle. -/
def connect_to_smtp_server (sc : ServerConf) (w : World) (v : Nat) :
    List Act × Except String Unit :=
  match w.connect_error v with
  | none => (connect_actions sc, Except.ok ())
  | some e =>
      ((if sc.encryption = "ssl" then [Act.connectSSL sc.host sc.port]
        else [Act.connectPlain sc.host sc.port]), Except.error e)

/-- Python `x or y` on optional strings (`self._sender_name if
self._sender_name else self._sender_mail`). -/
def pyStrOr (x y : Option String) : Option String :=
  if pyTruthyStrOpt x then x else y

/-- The recipient list of `_get_receiver_and_sender`: the comma-split of the
configured string when it is truthy, else the sender address itself (note the
source then passes a plain string, not a list, to `sendmail`). -/
inductive ReceiverSpec where
  | list (l : List String)
  | single (m : Option String)
  deriving Repr, DecidableEq

/-- `SmtpMsg._get_receiver_and_sender`. -/
def get_receiver_and_sender (c : Config) (sender_mail : Option String) :
    ReceiverSpec × Option String × Option String :=
  ((if c.receiver_mail ≠ "" then ReceiverSpec.list (c.receiver_mail.splitOn ",")
    else ReceiverSpec.single sender_mail),
   pyStrOr c.sender_name sender_mail, sender_mail)

/-- Render an optional string the way a Python f-string renders it
(`None` prints as `"None"`). -/
def fstr : Option String → String
  | some s => s
  | none => "None"

/-- `SmtpMsg.__msg_build_email_Header`: writes `Subject` and `From`; the
world oracle decides whether one of the header encodings raises. -/
def msg_build_email_Header (w : World) (m : Msg)
    (title : String) (sender_name sender_mail : Option String) :
    Except String Msg :=
  match w.header_error with
  | some e => Except.error e
  | none =>
      Except.ok { m with subject := some title,
                         fromHeader := some (fstr sender_name ++ " <" ++ fstr sender_mail ++ ">") }

/-- `SmtpMsg._msg_build_email`: template render, header assembly, then body
assembly (with the optional image embedding). -/
def msg_build_email (c : Config) (w : World) (vp : ValidatedParams)
    (sender_name sender_mail : Option String) : Except String Msg :=
  match w.template_result with
  | Except.error e => Except.error e
  | Except.ok msg_html =>
      match msg_build_email_Header w {} vp.title sender_name sender_mail with
      | Except.error e => Except.error e
      | Except.ok m1 => msg_build_email_body c w.img vp.image msg_html m1

/-- The `except Exception` handler of `_send_to_smtp` for the case where a
session object exists (`if server: server.quit()`): the handler closes the
session and returns `False`, but `quit()` itself can raise on a dead socket,
and that exception escapes `_send_to_smtp` (the logging decorator re-raises
it). -/
def handle_send_failure (w : World) (v : Nat) : Except String Bool :=
  match w.quit_error v with
  | some e => Except.error e
  | none => Except.ok false

/-- `SmtpMsg._send_to_smtp`: the whole per-server attempt.  The first
component is `Except.ok` of the boolean outcome when the attempt terminates
normally — stage exceptions raised while `server` is still `None`
(validation, config lookup, connect) are absorbed into `Except.ok false` by
the outer `except` — or `Except.error` when the handler's own
`server.quit()` raises, which only happens after a successful connect (build
or transmission failure) and escapes the function.  The second component is
the trace of externally visible acts in the order the source performs them
(the acts precede the point where any exception is raised, so the trace does
not depend on the `quit()` outcome). -/
def send_to_smtp_named (c : Config) (w : World) (p : EventParams)
    (smtp_type server_type : String) (smtp_value : Nat) :
    Except String Bool × List Act :=
    match msg_parameter_validation c server_type p with
    | Except.error _ => (Except.ok false, [Act.validate false])
    | Except.ok vp =>
      match get_dict_value c server_type smtp_type with
      | Except.error _ => (Except.ok false, [Act.validate true, Act.readConfig])
      | Except.ok sc =>
        let connS := connect_to_smtp_server sc w smtp_value
        match connS.2 with
        | Except.error _ =>
            (Except.ok false, [Act.validate true, Act.readConfig] ++ connS.1)
        | Except.ok _ =>
          let base := [Act.validate true, Act.readConfig] ++ connS.1 ++ [Act.readRecipients]
          let rs := get_receiver_and_sender c sc.mail
          match msg_build_email c w vp rs.2.1 rs.2.2 with
          | Except.error _ => (handle_send_failure w smtp_value, base ++ [Act.buildMsg])
          | Except.ok _message =>
            match w.sendmail_error smtp_value with
            | some _ => (handle_send_failure w smtp_value, base ++ [Act.buildMsg, Act.sendMail])
            | none => (Except.ok true, base ++ [Act.buildMsg, Act.sendMail])

/-- The slot-name resolution of `_send_to_smtp` (`smtp_value == 0` is the
`main`/`主` slot, `1` the `secondary`/`备用` one; anything else raises with
`server` still `None`, which the outer `except` turns into a `False` outcome
with no acts performed). -/
def send_to_smtp (c : Config) (w : World) (p : EventParams) (smtp_value : Nat) :
    Except String Bool × List Act :=
  match (if smtp_value = 0 then some ("main", "主")
         else if smtp_value = 1 then some ("secondary", "备用") else none) with
  | none => (Except.ok false, [])
  | some (smtp_type, server_type) =>
      send_to_smtp_named c w p smtp_type server_type smtp_value

/-- What `master_program` did: the two tri-state outcomes, the slots actually
attempted (in order), and the concatenated act traces of the attempts (the
acts of an attempt are recorded even when its cleanup raises, since they
happened before the raise). -/
structure MasterTrace where
  m_success : Option Bool := none
  s_success : Option Bool := none
  attempts : List Nat := []
  acts : List Act := []
  deriving Repr, DecidableEq

/-- How a per-attempt result reaches `master_program`: a normal boolean
return is assigned to `m_success`/`s_success`, an escaping exception
propagates. -/
def attempt_outcome (r : Except String Bool) : Except String (Option Bool) :=
  match r with
  | Except.error e => Except.error e
  | Except.ok b => Except.ok (some b)

/-- One server slot of `master_program`: when the slot flag is on, ask
`_determine_server` (whose exception would escape `master_program`); when it
answers truthily, run `_send_to_smtp` for that slot.  The first component is
the assigned outcome or the escaping exception; attempts and acts are listed
even when the attempt ends in an escaping exception. -/
def run_slot (c : Config) (w : World) (p : EventParams) (v : Nat)
    (slot_enabled : Bool) (prior : Option Bool) :
    Except String (Option Bool) × List Nat × List Act :=
  if slot_enabled then
    match determine_server c v prior with
    | Except.error e => (Except.error e, [], [])
    | Except.ok (st, _) =>
        if pyTruthy st then
          let r := send_to_smtp c w p v
          (attempt_outcome r.1, [v], r.2)
        else (Except.ok none, [], [])
  else (Except.ok none, [], [])

/-- `SmtpMsg.master_program`.  Runs the primary slot when `self._main` is on
and `_determine_server` answers truthily, then the secondary slot likewise,
then reduces the outcomes with `_generate_result_log`.  The `Except`
component is the value `master_program` returns to its caller (`none` on
non-test runs, the summary on test runs), or the exception escaping it —
from `_determine_server`, from `_generate_result_log`, or from a
`server.quit()` raise inside a failed attempt; the logging decorator
re-raises each of those. -/
def master_program (c : Config) (w : World) (p : EventParams) :
    MasterTrace × Except String (Option String) :=
  match run_slot c w p 0 c.main none with
  | (Except.error e, att0, acts0) =>
      ({ attempts := att0, acts := acts0 }, Except.error e)
  | (Except.ok m_success, att0, acts0) =>
    match run_slot c w p 1 c.secondary m_success with
    | (Except.error e, att1, acts1) =>
        ({ m_success := m_success, attempts := att0 ++ att1,
           acts := acts0 ++ acts1 }, Except.error e)
    | (Except.ok s_success, att1, acts1) =>
      let tr : MasterTrace :=
        { m_success := m_success, s_success := s_success,
          attempts := att0 ++ att1, acts := acts0 ++ acts1 }
      match generate_result_log c.test m_success s_success with
      | Except.error e => (tr, Except.error e)
      | Except.ok genMsg => (tr, Except.ok (if c.test then genMsg else none))

/-!  The event handler `SmtpMsg.send`. -/

/-- The payload of a `NoticeMessage` event (`event.event_data` keys read by
`send`).  `channel` presence (truthy) routes the event elsewhere. -/
structure EventData extends EventParams where
  channel : Option String := none
  deriving Repr, DecidableEq

/-- The message-type filter test of `send`:
`msg_type and self._msgtypes and msg_type.name not in self._msgtypes`.
Python short-circuit: when `msg_type` is truthy and the allow-list is
non-empty, `.name` is evaluated — for an actual string payload that attribute
access raises `AttributeError`. -/
def msgTypeFilter (c : Config) : MsgTypeIn → Except String Bool
  | MsgTypeIn.enum _ nm =>
      Except.ok (decide (c.msgtypes ≠ []) && !(c.msgtypes.contains nm))
  | MsgTypeIn.noneT => Except.ok false
  | MsgTypeIn.str s =>
      if decide (s ≠ "") && decide (c.msgtypes ≠ []) then
        Except.error "AttributeError: str object has no attribute name"
      else Except.ok false

/-- Whether the control flow of `send` reaches `master_program`. -/
inductive SendDecision where
  | skip
  | dispatch
  deriving Repr, DecidableEq

/-- The guard cascade of `SmtpMsg.send`, up to (and including) the
message-type filter: disabled plugin, falsy event data, truthy `channel`,
both `title` and `text` falsy, and the allow-list filter (which lets a
filtered type through when `self._other_msgtypes` is on). -/
def send_decision (c : Config) (ed : Option EventData) : Except String SendDecision :=
  if c.enabled = false then Except.ok SendDecision.skip
  else
    match ed with
    | none => Except.ok SendDecision.skip
    | some d =>
      if pyTruthyStrOpt d.channel then Except.ok SendDecision.skip
      else if !pyTruthyStrOpt d.title && !pyTruthyStrOpt d.text then
        Except.ok SendDecision.skip
      else
        match msgTypeFilter c d.msg_type with
        | Except.error e => Except.error e
        | Except.ok true =>
            if c.other_msgtypes then Except.ok SendDecision.dispatch
            else Except.ok SendDecision.skip
        | Except.ok false => Except.ok SendDecision.dispatch

/-- The observable outcome of the event handler. -/
inductive SendOutcome where
  | skipped
  | dispatched (trace : MasterTrace) (returned : Option String)

/-- `SmtpMsg.send`: the guard cascade followed, when it decides to dispatch,
by `master_program`.  An exception raised by `master_program` (or by the
`.name` access in the filter) escapes the handler, hence the `Except`. -/
def send_event (c : Config) (w : World) (ed : Option EventData) :
    Except String SendOutcome :=
  match send_decision c ed with
  | Except.error e => Except.error e
  | Except.ok SendDecision.skip => Except.ok SendOutcome.skipped
  | Except.ok SendDecision.dispatch =>
      match ed with
      | none => Except.ok SendOutcome.skipped
      | some d =>
          match master_program c w d.toEventParams with
          | (_, Except.error e) => Except.error e
          | (tr, Except.ok v) => Except.ok (SendOutcome.dispatched tr v)

/-!  Concrete inputs used by closed theorems and witnesses. -/

/-- An image world where nothing works: HTTP raises (as `requests.get` does on
a string that is not a URL), no path is a file, files are unreadable. -/
def wImgNone : ImgWorld :=
  { httpGet := fun _ => Except.error "MissingSchema",
    isfile := fun _ => false,
    readFile := fun _ => Except.error "文件路径不存在" }

/-- A world where every external operation succeeds. -/
def wAllOk : World :=
  { connect_error := fun _ => none,
    template_result := Except.ok "<html>正文</html>",
    header_error := none,
    sendmail_error := fun _ => none,
    quit_error := fun _ => none,
    img := wImgNone }

/-- A world where every network operation fails at connection time (no
session ever opens, so its cleanup never runs, let alone raises). -/
def wNoNet : World :=
  { connect_error := fun _ => some "建立连接超时",
    template_result := Except.error "没有找到邮件模板文件",
    header_error := none,
    sendmail_error := fun _ => some "断开了连接",
    quit_error := fun _ => none,
    img := wImgNone }

/-- A world where the connection and the message build succeed but the server
disconnects during `sendmail`, so that the cleanup `quit()` on the now-dead
socket raises as smtplib does. -/
def wDeadSocket : World :=
  { connect_error := fun _ => none,
    template_result := Except.ok "<html>正文</html>",
    header_error := none,
    sendmail_error := fun _ => some "断开了连接",
    quit_error := fun _ => some "please run connect() first",
    img := wImgNone }

/-- Primary disabled, secondary enabled and fully configured. -/
def cfgMainOff : Config :=
  { enabled := true, main := false, secondary := true,
    secondary_smtp_host := some "smtp.example.com",
    secondary_smtp_port := some "465",
    secondary_smtp_encryption := "ssl",
    secondary_sender_mail := some "a@example.com",
    secondary_sender_password := some "pw" }

/-- Primary enabled and fully configured, secondary disabled. -/
def cfgMainOn : Config :=
  { enabled := true, main := true, secondary := false,
    main_smtp_host := some "smtp.example.com",
    main_smtp_port := some "25",
    main_sender_mail := some "a@example.com",
    main_sender_password := some "pw" }

/-- Both servers enabled, test run. -/
def cfgBothTest : Config :=
  { cfgMainOn with
    secondary := true
    test := true
    secondary_smtp_host := some "smtp2.example.com"
    secondary_smtp_port := some "587"
    secondary_smtp_encryption := "tls"
    secondary_sender_mail := some "b@example.com"
    secondary_sender_password := some "pw2" }

/-- Primary enabled but with every required field of the primary slot unset. -/
def cfgUnsetMain : Config := { enabled := true, main := true }

/-- Image sending enabled (all else default). -/
def cfgImgOn : Config := { send_image := true }

/-- A genuine base64 data URI. -/
def dataUriSample : String := "data:image/png;base64,iVBORw0KGgo="

/-- A configuration with a non-empty notification-type allow-list. -/
def cfgFiltered : Config := { enabled := true, msgtypes := ["Plugin"] }

/-- An event of an enumerated type whose name is not in the allow-list. -/
def dFiltered : EventData :=
  { msg_type := MsgTypeIn.enum "电影" "Movie", title := some "标题" }

/-!  Helper lemmas shared by several claims. -/

/-- `_determine_server` never raises for the two real slots. -/
theorem determine_server_ok (c : Config) (v : Nat) (s : Option Bool)
    (h : v = 0 ∨ v = 1) : ∃ y, determine_server c v s = Except.ok y := by
  rcases h with rfl | rfl <;> rcases s with _ | b <;>
    exact ⟨_, rfl⟩

/-- When the cleanup `quit()` for slot `v` does not raise, a per-server
attempt always terminates with a boolean outcome (never an escaping
exception). -/
theorem send_to_smtp_named_ok (c : Config) (w : World) (p : EventParams)
    (st sv : String) (v : Nat) (hq : w.quit_error v = none) :
    ∃ b, (send_to_smtp_named c w p st sv v).1 = Except.ok b := by
  unfold send_to_smtp_named
  dsimp only
  split
  · exact ⟨false, rfl⟩
  · split
    · exact ⟨false, rfl⟩
    · split
      · exact ⟨false, rfl⟩
      · split
        · exact ⟨false, by simp [handle_send_failure, hq]⟩
        · split
          · exact ⟨false, by simp [handle_send_failure, hq]⟩
          · exact ⟨true, rfl⟩

/-- The same, lifted through the slot-name resolution. -/
theorem send_to_smtp_ok (c : Config) (w : World) (p : EventParams) (v : Nat)
    (hq : w.quit_error v = none) :
    ∃ b, (send_to_smtp c w p v).1 = Except.ok b := by
  by_cases h0 : v = 0
  · subst h0
    exact send_to_smtp_named_ok c w p "main" "主" 0 hq
  · by_cases h1 : v = 1
    · subst h1
      exact send_to_smtp_named_ok c w p "secondary" "备用" 1 hq
    · refine ⟨false, ?_⟩
      unfold send_to_smtp
      rw [if_neg h0, if_neg h1]

/-- `run_slot` propagates no exception for a real slot whose cleanup does not
raise. -/
theorem run_slot_first_ok (c : Config) (w : World) (p : EventParams)
    (v : Nat) (en : Bool) (s : Option Bool)
    (hv : v = 0 ∨ v = 1) (hq : w.quit_error v = none) :
    ∃ y a l, run_slot c w p v en s = (Except.ok y, a, l) := by
  unfold run_slot
  split
  · split
    · next e heq =>
        obtain ⟨y, hy⟩ := determine_server_ok c v s hv
        rw [heq] at hy
        cases hy
    · split
      · obtain ⟨b, hb⟩ := send_to_smtp_ok c w p v hq
        refine ⟨some b, [v], (send_to_smtp c w p v).2, ?_⟩
        dsimp only
        rw [hb]
        rfl
      · exact ⟨none, [], [], rfl⟩
  · exact ⟨none, [], [], rfl⟩

/-- The acts of a `run_slot` are `[]` or exactly the acts of the
corresponding `_send_to_smtp` run, whatever the outcome. -/
theorem run_slot_acts (c : Config) (w : World) (p : EventParams)
    (v : Nat) (en : Bool) (s : Option Bool) :
    (run_slot c w p v en s).2.2 = [] ∨
      (run_slot c w p v en s).2.2 = (send_to_smtp c w p v).2 := by
  unfold run_slot
  split
  · split
    · exact Or.inl rfl
    · split
      · exact Or.inr rfl
      · exact Or.inl rfl
  · exact Or.inl rfl

/-- `_generate_result_log` never raises once the primary outcome is a
boolean. -/
theorem generate_result_log_some_ok (t : Bool) (b : Bool) (s : Option Bool) :
    ∃ r, generate_result_log t (some b) s = Except.ok r := by
  cases b <;> rcases s with _ | b2 <;> first
    | exact ⟨_, rfl⟩
    | cases b2 <;> exact ⟨_, rfl⟩

/-- Membership in the concatenation of two lists that are each empty or equal
to a given list. -/
theorem mem_append_cases {α : Type} (a : α) (x y u v : List α)
    (hx : x = [] ∨ x = u) (hy : y = [] ∨ y = v) (ha : a ∈ x ++ y) :
    a ∈ u ∨ a ∈ v := by
  rcases hx with rfl | rfl <;> rcases hy with rfl | rfl
  · simp at ha
  · simp only [List.nil_append] at ha
    exact Or.inr ha
  · simp only [List.append_nil] at ha
    exact Or.inl ha
  · rcases List.mem_append.mp ha with hm | hm
    · exact Or.inl hm
    · exact Or.inr hm

/-- Every act of `master_program` comes from one of the two `_send_to_smtp`
runs. -/
theorem master_acts_from_sends (c : Config) (w : World) (p : EventParams) :
    ∀ a ∈ (master_program c w p).1.acts,
      a ∈ (send_to_smtp c w p 0).2 ∨ a ∈ (send_to_smtp c w p 1).2 := by
  intro a ha
  unfold master_program at ha
  have hacts0 := run_slot_acts c w p 0 c.main none
  split at ha
  · next e att0 acts0 heq =>
    simp only at ha
    rw [show (run_slot c w p 0 c.main none).2.2 = acts0 from by rw [heq]]
      at hacts0
    rcases hacts0 with hl | hl <;> rw [hl] at ha
    · simp at ha
    · exact Or.inl ha
  · next m0 att0 acts0 heq =>
    rw [show (run_slot c w p 0 c.main none).2.2 = acts0 from by rw [heq]]
      at hacts0
    have hacts1 := run_slot_acts c w p 1 c.secondary m0
    split at ha
    · next e att1 acts1 heq1 =>
      simp only at ha
      rw [show (run_slot c w p 1 c.secondary m0).2.2 = acts1 from by rw [heq1]]
        at hacts1
      exact mem_append_cases a acts0 acts1 _ _ hacts0 hacts1 ha
    · next s1 att1 acts1 heq1 =>
      rw [show (run_slot c w p 1 c.secondary m0).2.2 = acts1 from by rw [heq1]]
        at hacts1
      split at ha <;> simp only at ha <;>
        exact mem_append_cases a acts0 acts1 _ _ hacts0 hacts1 ha

/-- With the primary enabled and its attempt terminating in a boolean, the
primary slot is run first and yields exactly that boolean. -/
theorem run_slot_zero_of_ok (c : Config) (w : World) (p : EventParams)
    (h : c.main = true) (r0 : Bool)
    (h0 : (send_to_smtp c w p 0).1 = Except.ok r0) :
    run_slot c w p 0 c.main none =
      (Except.ok (some r0), [0], (send_to_smtp c w p 0).2) := by
  unfold run_slot
  rw [h]
  rw [show determine_server c 0 none = Except.ok (some true, "主") from rfl]
  dsimp only [pyTruthy]
  rw [h0]
  rfl

/-- Computation of `master_program`'s trace when the primary slot is enabled
and terminates in a boolean: the primary is attempted first, and the trace
follows from the secondary slot's `run_slot` result (whatever its outcome
component is, including an escaping exception). -/
theorem master_main_on (c : Config) (w : World) (p : EventParams)
    (h : c.main = true) (r0 : Bool)
    (h0 : (send_to_smtp c w p 0).1 = Except.ok r0)
    (r1 : Except String (Option Bool)) (a1 : List Nat) (l1 : List Act)
    (h1 : run_slot c w p 1 c.secondary (some r0) = (r1, a1, l1)) :
    (master_program c w p).1.attempts = [0] ++ a1
    ∧ (master_program c w p).1.acts = (send_to_smtp c w p 0).2 ++ l1
    ∧ (master_program c w p).1.m_success = some r0 := by
  have hs0 := run_slot_zero_of_ok c w p h r0 h0
  unfold master_program
  rw [hs0]
  dsimp only
  rw [h1]
  rcases r1 with e | s1
  · exact ⟨rfl, rfl, rfl⟩
  · dsimp only
    rcases hg : generate_result_log c.test (some r0) s1 with e | g <;>
      exact ⟨rfl, rfl, rfl⟩

/-- Claim C1 (code bug): the spec says that with the primary server disabled
and the secondary enabled, the secondary is attempted as a first attempt.  In
the source, `_determine_server(smtp_value=1, success=None)` leaves `status`
unassigned (`None`), which is falsy, so `master_program` makes no attempt at
all — and then the outcome reduction raises.  This theorem evaluates the code
at such a configuration (with a fully working network): the selection answer
for the secondary slot with no prior outcome is `None`, the list of attempted
slots is empty, and `master_program` escapes with the internal-error
exception. -/
theorem C1_main_disabled_secondary_never_attempted :
    determine_server cfgMainOff 1 none = Except.ok (none, "备用")
    ∧ (master_program cfgMainOff wAllOk { }).1.attempts = []
    ∧ (master_program cfgMainOff wAllOk { }).2 =
        Except.error "出现未知错误，无法打印运行结果" :=
  ⟨rfl, rfl, rfl⟩

/-- Claim C3 (code bug): the spec says a slot with any required field unset
fails with an incomplete-configuration error before any network connection.
In the source the incomplete-configuration `except KeyError` branch of
`_get_dict_value` is dead (the `__smtp_settings` dict literal always contains
every key), so with every required field of the primary slot unset the config
extraction succeeds and the pipeline proceeds to open a connection to host
`None`.  Evaluated here: `_get_dict_value` returns the all-`None` profile, and
the attempt trace contains the transport connection act. -/
theorem C3_unset_config_not_detected_before_connect :
    get_dict_value cfgUnsetMain "主" "main" =
      Except.ok ⟨none, none, "not_encrypted", none, none⟩
    ∧ (send_to_smtp cfgUnsetMain wNoNet { } 0).2 =
      [Act.validate true, Act.readConfig, Act.connectPlain none none]
    ∧ (Act.connectPlain none none).isConnect = true :=
  ⟨rfl, rfl, rfl⟩

/-- Claim C4, counterexample: the claim says each of the nine combinations
other than (not-attempted, not-attempted) produces a summary sentence and only
the tenth raises; but the source raises for (not-attempted, succeeded) as
well, because its final `else` catches every `m_success is None` case. -/
theorem C4_counterexample_not_attempted_succeeded_raises :
    generate_result_log false none (some true) =
      Except.error "出现未知错误，无法打印运行结果" := rfl

/-- Claim C4 (amended): the outcome reduction is a pure total mapping on
`(Option Bool)²` that (a) raises exactly when the primary outcome is
not-attempted (all three such combinations, not only the tenth), and (b) for
a determined primary outcome produces a summary sentence iff the run is a test
run, or the primary failed, or the secondary was not attempted — i.e. the
combinations (succeeded, succeeded) and (succeeded, failed) yield no sentence
on non-test runs. -/
theorem C4_amended_reduction_domain (t : Bool) (m s : Option Bool) :
    ((∃ r, generate_result_log t m s = Except.ok r) ↔ m ≠ none)
    ∧ (∀ b, m = some b →
        ((∃ msg, generate_result_log t m s = Except.ok (some msg)) ↔
          (t = true ∨ b = false ∨ s = none))) := by
  constructor
  · cases t <;> rcases m with _ | b <;> rcases s with _ | b2 <;>
      first
        | (cases b <;> first
            | (cases b2 <;> simp [generate_result_log])
            | simp [generate_result_log])
        | (cases b2 <;> simp [generate_result_log])
        | simp [generate_result_log]
  · rintro b rfl
    cases t <;> cases b <;> rcases s with _ | b2 <;>
      first
        | (cases b2 <;> simp [generate_result_log])
        | simp [generate_result_log]

/-- Witness for C4: on a test run with both servers succeeding the reduction
does produce a sentence, via the amended characterisation. -/
theorem C4_amended_witness :
    ∃ msg, generate_result_log true (some true) (some true) =
      Except.ok (some msg) :=
  ((C4_amended_reduction_domain true (some true) (some true)).2 true rfl).mpr
    (Or.inl rfl)

/-- Claim C6, counterexample: dispatch with the primary server disabled (and
the secondary enabled, so the enablement invariant holds) makes
`master_program` raise the internal-error exception to its caller instead of
returning a failure string. -/
theorem C6_counterexample_master_raises :
    (master_program cfgMainOff wNoNet { }).2 =
      Except.error "出现未知错误，无法打印运行结果" := rfl

/-- Evaluation of the second raise path of `master_program`: primary enabled,
connection and message build succeed, the server disconnects during
transmission, and the failure handler's `server.quit()` on the now-dead
socket raises — smtplib's exception escapes `master_program` even though the
primary server is enabled. -/
theorem master_raises_on_dead_socket_cleanup :
    (master_program cfgMainOn wDeadSocket { }).2 =
      Except.error "please run connect() first" := rfl

/-- Claim C6 (amended): `master_program` never raises provided the primary
server is enabled and no failed attempt's session cleanup (`server.quit()` in
the `except` handler of `_send_to_smtp`) itself raises: under those
conditions every stage failure is absorbed into the per-server boolean
outcomes and a value is returned for every world and payload.  Both remaining
raise paths are real in the source: with the primary disabled the outcome
reduction raises (the counterexample above), and a `quit()` on a dead socket
escapes even with the primary enabled (`master_raises_on_dead_socket_cleanup`
evaluates that path). -/
theorem C6_amended_no_raise_when_cleanup_ok (c : Config) (w : World)
    (p : EventParams) (h : c.main = true)
    (hq : ∀ v, w.quit_error v = none) :
    ∃ r, (master_program c w p).2 = Except.ok r := by
  obtain ⟨b0, hb0⟩ := send_to_smtp_ok c w p 0 (hq 0)
  have hs0 := run_slot_zero_of_ok c w p h b0 hb0
  obtain ⟨y1, a1, l1, h1⟩ :=
    run_slot_first_ok c w p 1 c.secondary (some b0) (Or.inr rfl) (hq 1)
  obtain ⟨r, hg⟩ := generate_result_log_some_ok c.test b0 y1
  unfold master_program
  rw [hs0]
  dsimp only
  rw [h1]
  dsimp only
  rw [hg]
  exact ⟨_, rfl⟩

/-- Witness for C6 (amended): a concrete enabled-primary configuration in a
world whose cleanups never raise returns without raising. -/
theorem C6_amended_witness :
    ∃ r, (master_program cfgMainOn wNoNet { }).2 = Except.ok r :=
  C6_amended_no_raise_when_cleanup_ok cfgMainOn wNoNet { } rfl (fun _ => rfl)

/-- Claim C5: given that the primary attempt was made (primary enabled, and
the attempt terminated in a boolean outcome rather than an escaping cleanup
exception), the secondary-selection policy of `_determine_server` is: on a
non-test run whose primary attempt succeeded the secondary is never
attempted; if the primary attempt failed and the secondary is enabled the
secondary is attempted exactly once, regardless of run type; on a test run
the secondary is attempted whenever it is enabled, whatever the primary
outcome was. -/
theorem C5_secondary_selection_policy (c : Config) (w : World) (p : EventParams)
    (h : c.main = true) :
    (c.test = false → (send_to_smtp c w p 0).1 = Except.ok true →
      1 ∉ (master_program c w p).1.attempts)
    ∧ ((send_to_smtp c w p 0).1 = Except.ok false → c.secondary = true →
      (master_program c w p).1.attempts.count 1 = 1)
    ∧ (∀ b0, (send_to_smtp c w p 0).1 = Except.ok b0 → c.test = true →
      c.secondary = true → 1 ∈ (master_program c w p).1.attempts) := by
  refine ⟨?_, ?_, ?_⟩
  · intro ht hs
    have h1 : run_slot c w p 1 c.secondary (some true) =
        (Except.ok none, [], []) := by
      unfold run_slot determine_server
      rw [ht]
      cases hsec : c.secondary <;> rfl
    rw [(master_main_on c w p h true hs _ _ _ h1).1]
    simp
  · intro hs hsec
    have h1 : run_slot c w p 1 c.secondary (some false) =
        (attempt_outcome (send_to_smtp c w p 1).1, [1],
          (send_to_smtp c w p 1).2) := by
      unfold run_slot determine_server
      rw [hsec]
      cases ht : c.test <;> rfl
    rw [(master_main_on c w p h false hs _ _ _ h1).1]
    decide
  · intro b0 hb0 ht hsec
    have h1 : run_slot c w p 1 c.secondary (some b0) =
        (attempt_outcome (send_to_smtp c w p 1).1, [1],
          (send_to_smtp c w p 1).2) := by
      unfold run_slot determine_server
      rw [ht, hsec]
      rfl
    rw [(master_main_on c w p h b0 hb0 _ _ _ h1).1]
    simp

/-- Witness for C5: with both servers enabled on a test run, the secondary
slot is attempted. -/
theorem C5_witness_secondary_attempted_on_test :
    1 ∈ (master_program cfgBothTest wAllOk { }).1.attempts :=
  (C5_secondary_selection_policy cfgBothTest wAllOk { } rfl).2.2 true rfl rfl rfl

/-- Claim C7: on a non-test dispatch whose message type is a free-form
(unrecognised) one, with the allow-unrecognised-types switch off, parameter
validation fails with the invalid-message-type error, the per-server attempt
terminates with outcome `False` (no session exists yet, so nothing can
escape), and no transport connection act occurs anywhere in the dispatch;
with the switch on, validation succeeds and the type passes through
unchanged. -/
theorem C7_unrecognized_type_gate (c : Config) (w : World) (p : EventParams)
    (s : String) (ht : c.test = false) (hm : p.msg_type = MsgTypeIn.str s) :
    (c.other_msgtypes = false →
      (∀ st, msg_parameter_validation c st p =
        Except.error ("邮件变量校验失败 - 原因 - " ++
          "接收到不被支持的消息类型，且未开启第三方消息类型"))
      ∧ (∀ v, (send_to_smtp c w p v).1 = Except.ok false)
      ∧ (∀ a ∈ (master_program c w p).1.acts, a.isConnect = false))
    ∧ (c.other_msgtypes = true →
      ∀ st, ∃ vp, msg_parameter_validation c st p = Except.ok vp
        ∧ vp.msg_type = s) := by
  constructor
  · intro ho
    have hval : ∀ st, msg_parameter_validation c st p =
        Except.error ("邮件变量校验失败 - 原因 - " ++
          "接收到不被支持的消息类型，且未开启第三方消息类型") := by
      intro st
      unfold msg_parameter_validation
      rw [ht, hm, ho]
      rfl
    have hsend : ∀ v, (send_to_smtp c w p v).1 = Except.ok false
        ∧ ((send_to_smtp c w p v).2 = []
           ∨ (send_to_smtp c w p v).2 = [Act.validate false]) := by
      intro v
      by_cases h0 : v = 0
      · subst h0
        refine ⟨?_, Or.inr ?_⟩ <;>
          simp [send_to_smtp, send_to_smtp_named, hval]
      · by_cases h1 : v = 1
        · subst h1
          refine ⟨?_, Or.inr ?_⟩ <;>
            simp [send_to_smtp, send_to_smtp_named, hval]
        · refine ⟨?_, Or.inl ?_⟩ <;> simp [send_to_smtp, h0, h1]
    refine ⟨hval, fun v => (hsend v).1, ?_⟩
    intro a ha
    rcases master_acts_from_sends c w p a ha with hmem | hmem
    · rcases (hsend 0).2 with hl | hl <;> rw [hl] at hmem <;> simp at hmem
      rw [hmem]
      rfl
    · rcases (hsend 1).2 with hl | hl <;> rw [hl] at hmem <;> simp at hmem
      rw [hmem]
      rfl
  · intro ho st
    unfold msg_parameter_validation
    rw [ht, hm, ho]
    exact ⟨_, rfl, rfl⟩

/-- Witness for C7: a concrete free-form type with the switch off is rejected
without any send succeeding. -/
theorem C7_witness_rejected :
    (send_to_smtp cfgUnsetMain wAllOk { msg_type := MsgTypeIn.str "自定义" } 0).1
      = Except.ok false :=
  (((C7_unrecognized_type_gate cfgUnsetMain wAllOk
      { msg_type := MsgTypeIn.str "自定义" } "自定义" rfl rfl).1 rfl).2.1) 0

/-- A successful connection trace splits into transport acts (with no message
construction among them) followed by `ehlo` and `login`. -/
theorem connect_actions_decomp (sc : ServerConf) :
    ∃ t, connect_actions sc = t ++ [Act.ehlo, Act.login sc.mail sc.password]
      ∧ Act.buildMsg ∉ t := by
  unfold connect_actions
  split
  · exact ⟨[Act.connectSSL sc.host sc.port], rfl, by simp⟩
  · split
    · exact ⟨[Act.connectPlain sc.host sc.port, Act.starttls], rfl, by simp⟩
    · exact ⟨[Act.connectPlain sc.host sc.port], rfl, by simp⟩

/-- Whenever the message-construction act occurs in a per-server attempt whose
connection oracle succeeds, the attempt trace has the shape: validation and
config reads, then the full connect/auth act sequence of some server profile,
then recipient resolution, then the construction act. -/
theorem send_named_build_shape (c : Config) (w : World) (p : EventParams)
    (smtp_type server_type : String) (v : Nat)
    (hconn : w.connect_error v = none)
    (hb : Act.buildMsg ∈ (send_to_smtp_named c w p smtp_type server_type v).2) :
    ∃ sc tail, (send_to_smtp_named c w p smtp_type server_type v).2 =
      [Act.validate true, Act.readConfig] ++ connect_actions sc
        ++ [Act.readRecipients] ++ (Act.buildMsg :: tail) := by
  unfold send_to_smtp_named at hb ⊢
  rcases hval : msg_parameter_validation c server_type p with e | vp
  · rw [hval] at hb
    simp at hb
  · rw [hval] at hb
    dsimp only at hb ⊢
    rcases hgd : get_dict_value c server_type smtp_type with e | sc
    · rw [hgd] at hb
      simp at hb
    · rw [hgd] at hb
      dsimp only at hb ⊢
      have hc : connect_to_smtp_server sc w v = (connect_actions sc, Except.ok ()) := by
        unfold connect_to_smtp_server
        rw [hconn]
      rw [hc] at hb ⊢
      dsimp only at hb ⊢
      rcases hbuild : msg_build_email c w vp
          (get_receiver_and_sender c sc.mail).2.1
          (get_receiver_and_sender c sc.mail).2.2 with e | m
      · exact ⟨sc, [], by simp⟩
      · cases hsm : w.sendmail_error v
        · exact ⟨sc, [Act.sendMail], by simp [hsm]⟩
        · exact ⟨sc, [Act.sendMail], by simp [hsm]⟩

/-- The same shape, lifted to `_send_to_smtp` with its slot resolution. -/
theorem send_build_shape (c : Config) (w : World) (p : EventParams) (v : Nat)
    (hconn : w.connect_error v = none)
    (hb : Act.buildMsg ∈ (send_to_smtp c w p v).2) :
    ∃ sc tail, (send_to_smtp c w p v).2 =
      [Act.validate true, Act.readConfig] ++ connect_actions sc
        ++ [Act.readRecipients] ++ (Act.buildMsg :: tail) := by
  by_cases h0 : v = 0
  · subst h0
    have he : send_to_smtp c w p 0 = send_to_smtp_named c w p "main" "主" 0 := rfl
    rw [he] at hb ⊢
    exact send_named_build_shape c w p "main" "主" 0 hconn hb
  · by_cases h1 : v = 1
    · subst h1
      have he : send_to_smtp c w p 1 = send_to_smtp_named c w p "secondary" "备用" 1 := rfl
      rw [he] at hb ⊢
      exact send_named_build_shape c w p "secondary" "备用" 1 hconn hb
    · have he : send_to_smtp c w p v = (Except.ok false, []) := by
        unfold send_to_smtp
        rw [if_neg h0, if_neg h1]
      rw [he] at hb
      simp at hb

/-- Claim C8: the transport connection follows the configured encryption mode
exactly (`ssl` → implicit TLS from connection start; `tls` → plaintext then
STARTTLS upgrade; anything else → plaintext), in all modes authentication with
the sender address and credential happens right after the transport-level
session is established (only the EHLO handshake between), and within a
per-server attempt the login act always precedes the message-construction
act. -/
theorem C8_encryption_modes_and_auth_order (c : Config) (w : World)
    (p : EventParams) (sc : ServerConf) (v : Nat)
    (hconn : w.connect_error v = none) :
    ((sc.encryption = "ssl" →
        (connect_to_smtp_server sc w v).1 =
          [Act.connectSSL sc.host sc.port, Act.ehlo,
           Act.login sc.mail sc.password])
     ∧ (sc.encryption = "tls" →
        (connect_to_smtp_server sc w v).1 =
          [Act.connectPlain sc.host sc.port, Act.starttls, Act.ehlo,
           Act.login sc.mail sc.password])
     ∧ (sc.encryption ≠ "ssl" → sc.encryption ≠ "tls" →
        (connect_to_smtp_server sc w v).1 =
          [Act.connectPlain sc.host sc.port, Act.ehlo,
           Act.login sc.mail sc.password]))
    ∧ (Act.buildMsg ∈ (send_to_smtp c w p v).2 →
        ∃ mail pw pre post, (send_to_smtp c w p v).2 =
            pre ++ Act.login mail pw :: post
          ∧ Act.buildMsg ∉ pre ∧ Act.buildMsg ∈ post) := by
  constructor
  · refine ⟨?_, ?_, ?_⟩
    · intro he
      simp [connect_to_smtp_server, connect_actions, hconn, he]
    · intro he
      simp [connect_to_smtp_server, connect_actions, hconn, he]
    · intro h1 h2
      simp [connect_to_smtp_server, connect_actions, hconn, h1, h2]
  · intro hb
    obtain ⟨sc2, tail, hshape⟩ := send_build_shape c w p v hconn hb
    obtain ⟨t, htd, hnb⟩ := connect_actions_decomp sc2
    refine ⟨sc2.mail, sc2.password,
      [Act.validate true, Act.readConfig] ++ t ++ [Act.ehlo],
      Act.readRecipients :: Act.buildMsg :: tail, ?_, ?_, ?_⟩
    · rw [hshape, htd]
      simp
    · simp [hnb]
    · simp

/-- Witness for C8: a concrete `ssl` profile produces the implicit-TLS
connect/auth trace. -/
theorem C8_witness_ssl_trace :
    (connect_to_smtp_server
        ⟨some "smtp.example.com", some "465", "ssl", some "a@example.com", some "pw"⟩
        wAllOk 0).1 =
      [Act.connectSSL (some "smtp.example.com") (some "465"), Act.ehlo,
       Act.login (some "a@example.com") (some "pw")] :=
  ((C8_encryption_modes_and_auth_order cfgMainOn wAllOk { }
      ⟨some "smtp.example.com", some "465", "ssl", some "a@example.com", some "pw"⟩
      0 rfl).1.1) rfl

/-- A character list without a colon never splits. -/
theorem splitAtColon_eq_none (l : List Char) (h : ∀ ch ∈ l, ch ≠ ':') :
    splitAtColon l = none := by
  induction l with
  | nil => rfl
  | cons a t ih =>
    unfold splitAtColon
    rw [if_neg (h a (by simp))]
    rw [ih (fun ch hc => h ch (by simp [hc]))]

/-- A colon-free string (for example any ordinary POSIX file path) parses with
the empty scheme. -/
theorem no_colon_scheme (s : String) (h : ∀ ch ∈ s.data, ch ≠ ':') :
    urlparse_scheme s = "" := by
  unfold urlparse_scheme
  rw [splitAtColon_eq_none s.data h]

/-- Claim C2, counterexample: the claim says a raw binary payload is embedded
as-is; in the source the `elif isinstance(image, bytes)` arm is nested inside
the `isinstance(image, str)` block, so a `bytes` value skips the whole
classification chain, `image_data` stays `None`, `None.add_header` raises, and
the embedding is skipped with a warning — the message is left unchanged. -/
theorem C2_counterexample_bytes_payload_not_used :
    (embed_image cfgImgOn wImgNone (ImgVal.bytes [137, 80, 78, 71]) { }).1
        = ({ } : Msg)
    ∧ (embed_image cfgImgOn wImgNone (ImgVal.bytes [137, 80, 78, 71]) { }).2.level
        = some 2 :=
  ⟨rfl, rfl⟩

/-- Claim C2 (amended): the classification the source actually performs.
For string values the branch order is URL-scheme test, then filesystem test,
then the base64 pattern: (a) any string whose scheme is in the network-scheme
list is fetched — regardless of whether it names an existing file; (b) the
empty scheme is in that list, so every colon-free string (every plain file
path) is classified as a URL and fetched; (c) a genuine data URI (not naming
an existing file) does reach the base64 branch, but decoding always fails
because the source reads a regex group name the pattern does not define;
(d) a raw bytes payload is never classified and the embedding is skipped with
a warning, the message unchanged; (e)/(f) a `MIMEImage` part arises only from
the existing-file branch, so only that branch can ever embed an image. -/
theorem C2_amended_image_classification (w : ImgWorld) (c : Config) :
    (∀ s : String, urlparse_scheme s ∈ uses_netloc →
        classify_image_value w (ImgVal.str s) = url_fetch_branch w s)
    ∧ (∀ s : String, (∀ ch ∈ s.data, ch ≠ ':') →
        classify_image_value w (ImgVal.str s) = url_fetch_branch w s)
    ∧ (w.isfile dataUriSample = false →
        classify_image_value w (ImgVal.str dataUriSample) =
          Except.error ("解码 Base64 数据时出错：" ++ "no such group"))
    ∧ (∀ b m, c.send_image = true → b ≠ [] →
        embed_image c w (ImgVal.bytes b) m =
          (m, ⟨some ("出现错误，跳过嵌入 - 原因 - " ++
            "AttributeError: NoneType object has no attribute add_header"), some 2⟩))
    ∧ (∀ v d, classify_image_value w v =
          Except.ok (some (ImageData.mimeImage d)) →
        ∃ s, v = ImgVal.str s
          ∧ urlparse_scheme s ∉ uses_netloc
          ∧ w.isfile s = true ∧ w.readFile s = Except.ok d)
    ∧ (∀ v m m2, (classify_image_value w v).bind
          (fun d => attach_image_data d m) = Except.ok m2 →
        ∃ d, classify_image_value w v =
            Except.ok (some (ImageData.mimeImage d))
          ∧ m2 = { m with imageParts := m.imageParts ++ [ImageData.mimeImage d] }) := by
  have hempty : ("" : String) ∈ uses_netloc := by decide
  refine ⟨?_, ?_, ?_, ?_, ?_, ?_⟩
  · intro s hu
    simp [classify_image_value, hu]
  · intro s h
    simp [classify_image_value, no_colon_scheme s h, hempty]
  · intro hf
    have h1 : urlparse_scheme dataUriSample ∉ uses_netloc := by decide
    have h2 : matchesDataUri dataUriSample = true := by decide
    simp [classify_image_value, h1, h2, hf]
  · intro b m hs hb
    simp [embed_image, hs, ImgVal.truthy, hb, classify_image_value,
      attach_image_data, Except.bind]
  · intro v d hcl
    rcases v with s | b | _
    · by_cases hu : urlparse_scheme s ∈ uses_netloc
      · rw [show classify_image_value w (ImgVal.str s) = url_fetch_branch w s from by
          simp [classify_image_value, hu]] at hcl
        unfold url_fetch_branch at hcl
        rcases hw : w.httpGet s with e | ⟨code, body⟩ <;> rw [hw] at hcl
        · simp at hcl
        · by_cases h200 : code = 200 <;> simp [h200] at hcl
      · by_cases hf : w.isfile s = true
        · refine ⟨s, rfl, hu, hf, ?_⟩
          simp only [classify_image_value] at hcl
          rw [if_neg (by simpa using hu), if_pos hf] at hcl
          rcases hr : w.readFile s with e | b2 <;> rw [hr] at hcl <;>
            simp at hcl
          rw [hcl]
        · have hfne : w.isfile s = false := by simpa using hf
          by_cases hd : matchesDataUri s = true <;>
            simp [classify_image_value, hu, hfne, hd] at hcl
    · simp [classify_image_value] at hcl
    · simp [classify_image_value] at hcl
  · intro v m m2 hok
    rcases hcl : classify_image_value w v with e | d0 <;> rw [hcl] at hok
    · simp [Except.bind] at hok
    · rcases d0 with _ | d1
      · simp [Except.bind, attach_image_data] at hok
      · rcases d1 with b | b
        · simp [Except.bind, attach_image_data] at hok
        · refine ⟨b, rfl, ?_⟩
          simp only [Except.bind, attach_image_data] at hok
          simpa using hok.symm

/-- Witness for C2: a concrete colon-free path string is classified as a URL
and fetched, not read from the filesystem. -/
theorem C2_amended_witness_plain_path_fetched :
    classify_image_value wImgNone (ImgVal.str "/tmp/pic.png") =
      url_fetch_branch wImgNone "/tmp/pic.png" :=
  (C2_amended_image_classification wImgNone cfgImgOn).2.1 "/tmp/pic.png"
    (by decide)

/-- A successful `add_header`/`attach` never touches the HTML parts. -/
theorem attach_preserves_htmlParts (d : Option ImageData) (m m2 : Msg)
    (h : attach_image_data d m = Except.ok m2) : m2.htmlParts = m.htmlParts := by
  rcases d with _ | (b | b)
  · simp [attach_image_data] at h
  · simp [attach_image_data] at h
  · simp only [attach_image_data, Except.ok.injEq] at h
    subst h
    rfl

/-- Claim C9: every failure inside the image-embedding step is downgraded to a
level-2 warning with the message returned unchanged (never aborting the
attempt), "image sending disabled" and "no image supplied" are level-1 notes
rather than warnings, and the body construction always succeeds with the HTML
part attached whatever the embedding did. -/
theorem C9_embed_failures_nonfatal (c : Config) (w : ImgWorld) (v : ImgVal)
    (m : Msg) :
    (∀ html, ∃ m2, msg_build_email_body c w v html m = Except.ok m2
        ∧ m2.htmlParts = m.htmlParts ++ [html])
    ∧ (∀ e, c.send_image = true → v.truthy = true →
        (classify_image_value w v).bind (fun d => attach_image_data d m) =
          Except.error e →
        embed_image c w v m =
          (m, ⟨some ("出现错误，跳过嵌入 - 原因 - " ++ e), some 2⟩))
    ∧ (c.send_image = false →
        embed_image c w v m = (m, ⟨some "未开启发送图片，抛弃图片数据", some 1⟩))
    ∧ (c.send_image = true → v.truthy = false →
        embed_image c w v m = (m, ⟨some "未传入图片参数，跳过图片嵌入", some 1⟩)) := by
  have hpres : ∀ m1 : Msg, ((embed_image c w v m1).1).htmlParts = m1.htmlParts := by
    intro m1
    unfold embed_image
    split
    · split
      · rcases hres : (classify_image_value w v).bind
            (fun d => attach_image_data d m1) with e | m2
        · rfl
        · dsimp only
          rcases hcl : classify_image_value w v with e2 | d0
          · rw [hcl] at hres
            simp [Except.bind] at hres
          · rw [hcl] at hres
            simp only [Except.bind] at hres
            exact attach_preserves_htmlParts d0 m1 m2 hres
      · rfl
    · rfl
  have hbody : ∀ html, msg_build_email_body c w v html m =
      Except.ok { (embed_image c w v { m with altAttached := true }).1 with
        htmlParts :=
          (embed_image c w v { m with altAttached := true }).1.htmlParts
            ++ [html] } := by
    intro html
    unfold msg_build_email_body
    dsimp only
  refine ⟨?_, ?_, ?_, ?_⟩
  · intro html
    refine ⟨_, hbody html, ?_⟩
    simp [hpres]
  · intro e hs htr hres
    unfold embed_image
    rw [hs, htr, hres]
    rfl
  · intro hs
    unfold embed_image
    rw [hs]
    rfl
  · intro hs htr
    unfold embed_image
    rw [hs, htr]
    rfl

/-- Witness for C9: a failing HTTP fetch is downgraded to a warning and the
message is unchanged. -/
theorem C9_witness_fetch_failure_downgraded :
    embed_image cfgImgOn wImgNone (ImgVal.str "http://example.com/x.png") { } =
      ({ }, ⟨some ("出现错误，跳过嵌入 - 原因 - " ++
        ("发生错误 - " ++ "MissingSchema")), some 2⟩) :=
  (C9_embed_failures_nonfatal cfgImgOn wImgNone
      (ImgVal.str "http://example.com/x.png") { }).2.1
    ("发生错误 - " ++ "MissingSchema") rfl rfl rfl

/-- Claim C10: for an event that passes the earlier guards of `send` (plugin
enabled, data present, no channel, title or text truthy), an enumerated
notification type whose name is outside a non-empty allow-list is dispatched
iff the allow-unrecognised-types switch is on (otherwise the handler returns
without dispatching); an absent type, or an empty allow-list, is never
filtered by this rule. -/
theorem C10_msgtype_allowlist_filter (c : Config) (d : EventData)
    (hen : c.enabled = true) (hch : pyTruthyStrOpt d.channel = false)
    (htt : pyTruthyStrOpt d.title = true ∨ pyTruthyStrOpt d.text = true) :
    (∀ label nm, d.msg_type = MsgTypeIn.enum label nm → c.msgtypes ≠ [] →
      nm ∉ c.msgtypes →
      send_decision c (some d) =
        Except.ok (if c.other_msgtypes then SendDecision.dispatch
                   else SendDecision.skip))
    ∧ (d.msg_type = MsgTypeIn.noneT →
      send_decision c (some d) = Except.ok SendDecision.dispatch)
    ∧ (c.msgtypes = [] →
      send_decision c (some d) = Except.ok SendDecision.dispatch) := by
  have hguards : send_decision c (some d) =
      match msgTypeFilter c d.msg_type with
      | Except.error e => Except.error e
      | Except.ok true =>
          if c.other_msgtypes then Except.ok SendDecision.dispatch
          else Except.ok SendDecision.skip
      | Except.ok false => Except.ok SendDecision.dispatch := by
    unfold send_decision
    rw [hen]
    dsimp only
    rw [hch]
    rcases htt with ht | ht <;> simp [ht]
  refine ⟨?_, ?_, ?_⟩
  · intro label nm hmt hne hnin
    have hf : msgTypeFilter c d.msg_type = Except.ok true := by
      rw [hmt]
      simp [msgTypeFilter, hne, hnin]
    rw [hguards, hf]
    cases ho : c.other_msgtypes <;> simp [ho]
  · intro hmt
    have hf : msgTypeFilter c d.msg_type = Except.ok false := by
      rw [hmt]
      rfl
    rw [hguards, hf]
  · intro hmty
    have hf : msgTypeFilter c d.msg_type = Except.ok false := by
      rcases hm : d.msg_type with ⟨label, nm⟩ | s | _ <;>
        simp [msgTypeFilter, hmty]
    rw [hguards, hf]

/-- Witness for C10: a concrete enumerated type outside the allow-list, with
the switch off, makes the handler skip the dispatch. -/
theorem C10_witness_filtered_event_skipped :
    send_decision cfgFiltered (some dFiltered) = Except.ok SendDecision.skip :=
  (C10_msgtype_allowlist_filter cfgFiltered dFiltered rfl rfl
      (Or.inl rfl)).1 "电影" "Movie" rfl (by decide) (by decide)
